import Mathlib

/-!
Verification of the request-execution and result-aggregation engine of the
api-playground repository.

The engine exists twice in the repository with almost identical logic:
as the Vue component `TestForm.vue` (function `sendRequest`, helpers
`buildUrl`, `validateHeaders`/`validateBody`) and as the legacy script
(functions `sendTestRequest`, `validateJSON`, `extractParameters`).

External host capabilities (`fetch`, `Date.now`, `JSON.parse`) are modelled
as explicit inputs: the transport is a function from the request index to the
fetch outcome of that request (a resolved response, or the thrown error that
the surrounding `try` block catches — this covers failures of `fetch` itself
and of reading/parsing the response body, since all of them sit inside the
same `try`), per-request elapsed times and the overall wall-clock time are
carried by those inputs, and `JSON.parse` is an abstract parse function.
All thrown values reaching the handlers here are host `Error` objects
(`fetch` and body reading reject only with `Error` instances), so an
exception is modelled by its `message` string; the defensive
`instanceof Error ? e.message : 'Unknown error'` branch of the Vue code is
therefore modelled by the message itself.
-/

/-- A JSON value as produced by the host JSON parser.  The engine never
inspects parsed values, it only stores and forwards them; JSON numbers are
modelled as integers because no arithmetic is ever performed on them. -/
inductive Json where
  | null
  | bool (b : Bool)
  | num (n : Int)
  | str (s : String)
  | arr (elems : List Json)
  | obj (fields : List (String × Json))

instance : Inhabited Json := ⟨Json.null⟩

/-- The `data` field of a result: either a parsed JSON body (when the
response content type contains `application/json`), or plain text (the raw
body text, or an error message string for failed requests). -/
inductive RData where
  | json (v : Json)
  | text (s : String)

instance : Inhabited RData := ⟨RData.text ("")⟩

/-- A JavaScript `Error` object, modelled by its message. -/
structure JsError where
  message : String

/-- A fully resolved fetch response, as observed by the code inside the
`try` block: status line, response headers (the entries of
`response.headers`, lower-cased keys as produced by the fetch API), and the
body both as the value `response.json()` would yield and as the text
`response.text()` would yield (the code reads exactly one of the two). -/
structure FetchResponse where
  ok : Bool
  status : Nat
  statusText : String
  headers : List (String × String)
  jsonBody : Json
  textBody : String

/-- Outcome of one iteration of the request loop's `try` block:
`completed` — the fetch resolved (elapsed measured and pushed right after
it) and the body read succeeded; `failed` — the fetch itself threw before
any time was pushed (the catch measures and pushes `elapsed`);
`bodyFailed` — the fetch resolved (its elapsed time `fetchElapsed` was
already pushed) but `response.json()`/`response.text()` then threw, so the
catch pushes a second time `elapsed` and builds the failure record.  In the
`bodyFailed` case one iteration therefore contributes one result but two
entries to the `responseTimes` array. -/
inductive FetchOutcome where
  | completed (resp : FetchResponse) (elapsed : Nat)
  | failed (e : JsError) (elapsed : Nat)
  | bodyFailed (fetchElapsed : Nat) (e : JsError) (elapsed : Nat)

/-- One element of the `results` array built by the request loop. -/
structure SingleResult where
  success : Bool
  status : Nat
  statusText : String
  headers : List (String × String)
  data : RData
  responseTime : Nat
  requestNumber : Nat
  error : Bool := false

instance : Inhabited SingleResult :=
  ⟨{ success := false, status := 0, statusText := "", headers := [],
     data := default, responseTime := 0, requestNumber := 0 }⟩

/-- `haystack` contains `needle` as a contiguous substring
(JavaScript `String.prototype.includes`). -/
def occursSub (pat : List Char) : List Char → Bool
  | [] => pat.isPrefixOf []
  | c :: t => pat.isPrefixOf (c :: t) || occursSub pat t

/-- String wrapper for `occursSub`. -/
def occursSubStr (pat s : String) : Bool :=
  occursSub pat.data s.data

/-- The body of the request loop, translated from the shared loop of
`sendRequest` (TestForm.vue) and `sendTestRequest` (legacy script): on a
resolved response the result records `response.ok`, the status line, the
header entries, and the body parsed as JSON when the `content-type` header
contains `application/json` (otherwise the body text); on a caught error the
result records status 0, statusText `Network Error`, empty headers, the
error message as data, and the error flag.  `i` is the loop index; the
request number is `i + 1`. -/
def executeRequest (outcome : FetchOutcome) (i : Nat) : SingleResult :=
  match outcome with
  | .completed resp elapsed =>
    let contentType := List.lookup ("content-type") resp.headers
    let responseData : RData :=
      match contentType with
      | some ct =>
        if occursSubStr ("application/json") ct then .json resp.jsonBody
        else .text resp.textBody
      | none => .text resp.textBody
    { success := resp.ok
      status := resp.status
      statusText := resp.statusText
      headers := resp.headers
      data := responseData
      responseTime := elapsed
      requestNumber := i + 1 }
  | .failed e elapsed =>
    { success := false
      status := 0
      statusText := ("Network Error")
      headers := []
      data := .text e.message
      responseTime := elapsed
      requestNumber := i + 1
      error := true }
  | .bodyFailed _ e elapsed =>
    { success := false
      status := 0
      statusText := ("Network Error")
      headers := []
      data := .text e.message
      responseTime := elapsed
      requestNumber := i + 1
      error := true }

/-- The request loop: `for (let i = 0; i < requestCount; i++)`, pushing one
result per iteration.  Requests run sequentially; the data produced is the
in-order list of per-iteration results. -/
def runBatch (transport : Nat → FetchOutcome) (count : Nat) : List SingleResult :=
  (List.range count).map fun i => executeRequest (transport i) i

/-- The entries one loop iteration pushes into the `responseTimes` array:
one push after a resolved fetch, one push in the catch — so a `bodyFailed`
iteration (fetch resolved, body read threw) pushes twice. -/
def pushedTimes : FetchOutcome → List Nat
  | .completed _ elapsed => [elapsed]
  | .failed _ elapsed => [elapsed]
  | .bodyFailed fetchElapsed _ elapsed => [fetchElapsed, elapsed]

/-- The full `responseTimes` array accumulated by the loop, in push
order. -/
def batchTimes (transport : Nat → FetchOutcome) (count : Nat) : List Nat :=
  (List.range count).flatMap fun i => pushedTimes (transport i)

/-- Whether an outcome is the double-push body-read-failure case. -/
def isBodyFailed : FetchOutcome → Bool
  | .bodyFailed _ _ _ => true
  | _ => false

/-- `results.filter((r) => r.success).length`. -/
def successfulCount (results : List SingleResult) : Nat :=
  (results.filter fun r => r.success).length

/-- `responseTimes.reduce((sum, time) => sum + time, 0)`. -/
def sumTimes (l : List Nat) : Nat :=
  l.foldl (· + ·) 0

/-- JavaScript `Math.round` on an exact rational: round half up,
`⌊q + 1/2⌋`.  For the values arising here (a sum of at most 1000
millisecond timings divided by the list length) the double-precision
evaluation in the source computes exactly this. -/
def jsRound (q : ℚ) : ℤ :=
  ⌊q + 1 / 2⌋

/-- `Math.round(responseTimes.reduce(...) / responseTimes.length)`.
For the empty list the source yields `NaN` (0/0); here rational division by
zero yields 0 — the statistics are only ever formed for a non-empty batch in
the theorems below. -/
def avgResponseTime (l : List Nat) : ℤ :=
  jsRound ((sumTimes l : ℚ) / (l.length : ℚ))

/-- `Math.min(...responseTimes)`.  On the empty list the source yields
`Infinity`; here 0 (never used on an empty list in the theorems below). -/
def jsMin : List Nat → Nat
  | [] => 0
  | h :: t => t.foldl Nat.min h

/-- `Math.max(...responseTimes)`.  On the empty list the source yields
`-Infinity`; here 0 (never used on an empty list in the theorems below). -/
def jsMax : List Nat → Nat
  | [] => 0
  | h :: t => t.foldl Nat.max h

/-- The `statistics` object of the multi-request branch. -/
structure Statistics where
  totalRequests : Nat
  successfulRequests : Nat
  failedRequests : Nat
  totalTime : Nat
  avgResponseTime : ℤ
  minResponseTime : Nat
  maxResponseTime : Nat

/-- Builds the `statistics` object exactly as the source does: the success
and failure counts come from the `results` array, while avg/min/max range
over the separately accumulated `responseTimes` array — which, because of
the double push of a body-read-failure iteration, can be longer than
`results` and contain values that are no result's `responseTime`. -/
def mkStatistics (count : Nat) (results : List SingleResult)
    (responseTimes : List Nat) (totalTime : Nat) : Statistics :=
  { totalRequests := count
    successfulRequests := successfulCount results
    failedRequests := results.length - successfulCount results
    totalTime := totalTime
    avgResponseTime := avgResponseTime responseTimes
    minResponseTime := jsMin responseTimes
    maxResponseTime := jsMax responseTimes }

/-- The single-request outcome shape (`requestCount === 1` branch). -/
structure SingleOutcome where
  success : Bool
  status : Nat
  statusText : String
  headers : List (String × String)
  data : RData
  responseTime : Nat
  url : String
  method : String
  requestHeaders : List (String × String)
  requestBody : Option Json

/-- The multi-request outcome shape. -/
structure BatchOutcome where
  success : Bool
  firstResult : SingleResult
  statistics : Statistics
  url : String
  method : String
  requestHeaders : List (String × String)
  requestBody : Option Json
  allResults : List SingleResult

/-- The value handed to the rendering layer: an error display object
(`{error: true, message, details}`), a single result, or a batch result. -/
inductive TestOutcome where
  | errorResult (message : String) (details : String)
  | single (o : SingleOutcome)
  | batch (o : BatchOutcome)

/-- Whether an outcome is the error display shape. -/
def isErrorResult : TestOutcome → Bool
  | .errorResult _ _ => true
  | _ => false

/-- The result-shaping tail of the send functions (identical in both
implementations): the single shape for `requestCount === 1`, otherwise the
batch shape whose top-level `success` is `successfulRequests > 0`, whose
`firstResult` is `results[0]`, and whose `allResults` is the full results
list. -/
def shapeOutcome (count : Nat) (finalUrl method : String)
    (requestHeaders : List (String × String)) (requestBody : Option Json)
    (results : List SingleResult) (responseTimes : List Nat)
    (totalTime : Nat) : TestOutcome :=
  if count = 1 then
    let r := results.headI
    .single
      { success := r.success
        status := r.status
        statusText := r.statusText
        headers := r.headers
        data := r.data
        responseTime := r.responseTime
        url := finalUrl
        method := method
        requestHeaders := requestHeaders
        requestBody := requestBody }
  else
    .batch
      { success := decide (0 < successfulCount results)
        firstResult := results.headI
        statistics := mkStatistics count results responseTimes totalTime
        url := finalUrl
        method := method
        requestHeaders := requestHeaders
        requestBody := requestBody
        allResults := results }

/-- The Vue `sendRequest` (TestForm.vue) after validation passed: it runs
the loop and shapes the outcome.  It performs NO request-count check — the
`1..1000` bound appears only as `min`/`max` attributes on the number input
in the template.  The second component counts the transport invocations
(one per loop iteration).  The outer `try/catch` of the source is dead in
this model because the loop body already catches every per-request error. -/
def sendRequest (transport : Nat → FetchOutcome) (requestCount : Nat)
    (finalUrl method : String) (requestHeaders : List (String × String))
    (requestBody : Option Json) (totalTime : Nat) : TestOutcome × Nat :=
  let results := runBatch transport requestCount
  let responseTimes := batchTimes transport requestCount
  (shapeOutcome requestCount finalUrl method requestHeaders requestBody
    results responseTimes totalTime, results.length)

/-- The legacy `sendTestRequest`: it first checks
`requestCount < 1 || requestCount > 1000` and, if violated, displays the
validation-error object and returns before any fetch; otherwise it runs the
same loop and shaping as the Vue version.  The count comes from `parseInt`,
hence `Int`.  The second component counts transport invocations. -/
def sendTestRequest (transport : Nat → FetchOutcome) (requestCount : Int)
    (finalUrl method : String) (requestHeaders : List (String × String))
    (requestBody : Option Json) (totalTime : Nat) : TestOutcome × Nat :=
  if requestCount < 1 ∨ requestCount > 1000 then
    (.errorResult ("Request count must be between 1 and 1000")
      ("Current value: " ++ toString requestCount), 0)
  else
    let results := runBatch transport requestCount.toNat
    let responseTimes := batchTimes transport requestCount.toNat
    (shapeOutcome requestCount.toNat finalUrl method requestHeaders
      requestBody results responseTimes totalTime, results.length)

/-- The default headers object `{'Content-Type': 'application/json'}`. -/
def defaultHeaders : List (String × String) :=
  [(("Content-Type"), ("application/json"))]

/-- JavaScript object spread `{...a, ...b}`, modelled lookup-faithfully:
keys of `b` take precedence over keys of `a`. -/
def jsMerge (a b : List (String × String)) : List (String × String) :=
  (a.filter fun p => (List.lookup p.1 b).isNone) ++ b

/-- The request headers of the Vue `sendRequest`:
`headersValidation.data || {'Content-Type': 'application/json'}` — the
caller's parsed headers verbatim when present, the default only when the
headers input was empty (`data` undefined). -/
def vueRequestHeaders (data? : Option (List (String × String))) :
    List (String × String) :=
  data?.getD defaultHeaders

/-- The request headers of the legacy `sendTestRequest`: starts from the
default object and merges the validated caller headers over it
(`headers = { ...headers, ...validatedHeaders }`); `none` models an empty
headers input (nothing merged). -/
def legacyRequestHeaders (data? : Option (List (String × String))) :
    List (String × String) :=
  match data? with
  | none => defaultHeaders
  | some hs => jsMerge defaultHeaders hs

/-- Result of the legacy `validateJSON(jsonString, ...)`: `null` for
blank input (modelled `nullResult`; the Vue helper reports
`isValid: true, data: undefined` here — both mean "valid, no data"),
the parsed value for valid JSON, and `false` plus a displayed parser error
message for malformed JSON (`invalid` carries that message; the Vue helper
reports `isValid: false, error: message`). -/
inductive JSONValidation (α : Type) where
  | nullResult : JSONValidation α
  | parsed (v : α) : JSONValidation α
  | invalid (error : String) : JSONValidation α
deriving DecidableEq

/-- JavaScript `String.prototype.trim`: strip leading and trailing
whitespace (the ASCII whitespace characters; JS also strips some Unicode
space characters, which never occur in the inputs considered here). -/
def jsTrim (s : String) : String :=
  ⟨((s.data.dropWhile Char.isWhitespace).reverse.dropWhile Char.isWhitespace).reverse⟩

/-- The JSON validator, translated from `validateJSON` of the legacy
script: blank input (`!jsonString.trim()`) is valid with no data; otherwise
the host parse (`JSON.parse`, abstracted as `parse`) decides: its value on
success, its error message on failure. -/
def validateJSON {α : Type} (parse : String → Except String α)
    (jsonString : String) : JSONValidation α :=
  if jsTrim jsonString = "" then .nullResult
  else
    match parse jsonString with
    | .ok v => .parsed v
    | .error e => .invalid e

/-- An extracted URL-template parameter, as produced by
`extractParameters`. -/
structure ParamInfo where
  name : String
  type : String
  required : Bool
deriving DecidableEq

/-- Scanner equivalent of the global regex match `:([^/]+)`: at each `:`
take the maximal following run of non-`/` characters as the parameter name
(skipping a `:` followed immediately by `/` or end of string, where the
regex cannot match), then continue after the match. -/
def extractParametersAux : List Char → List ParamInfo
  | [] => []
  | c :: rest =>
    if c = ':' then
      let nm := rest.takeWhile fun ch => ch ≠ '/'
      if nm = [] then extractParametersAux rest
      else
        { name := ⟨nm⟩, type := ("path"), required := true } ::
          extractParametersAux (rest.drop nm.length)
    else extractParametersAux rest
termination_by l => l.length
decreasing_by
  · simp
  · simp only [List.length_cons, List.length_drop]
    omega
  · simp

/-- `extractParameters(url)` of the legacy script. -/
def extractParameters (url : String) : List ParamInfo :=
  extractParametersAux url.data

/-- Replace the first occurrence of `pat` (as a contiguous substring) by
`rep` — the semantics of JavaScript `String.prototype.replace` with a plain
string pattern (the replacement is treated as plain text; the parameter
values substituted here contain no `$` patterns). -/
def replaceFirst (pat rep : List Char) : List Char → List Char
  | [] => if pat.isPrefixOf ([] : List Char) then rep else []
  | c :: t =>
    if pat.isPrefixOf (c :: t) then rep ++ (c :: t).drop pat.length
    else c :: replaceFirst pat rep t

/-- String wrapper for `replaceFirst`. -/
def replaceFirstStr (s pat rep : String) : String :=
  ⟨replaceFirst pat.data rep.data s.data⟩

/-- `buildUrl` of TestForm.vue: fold over the parameter-value entries in
order; a truthy (non-empty) value replaces the first occurrence of the
substring `:<key>` in the current URL, an empty value leaves the URL
unchanged. -/
def buildUrl (url : String) (paramValues : List (String × String)) : String :=
  paramValues.foldl
    (fun u kv => if kv.2 = "" then u else replaceFirstStr u ((":") ++ kv.1) kv.2)
    url

/-- Modelled from the spec: the HTTP-status "ok" range that the external
transport reports through `response.ok` (the spec words it as the
2xx–3xx range; the transport itself is a host capability, not code of this
repository). -/
def inOkRange (status : Nat) : Prop :=
  200 ≤ status ∧ status ≤ 399

instance (status : Nat) : Decidable (inOkRange status) := by
  unfold inOkRange
  infer_instance

/-- A transport whose every request fails (connection refused). -/
def failTransport : Nat → FetchOutcome :=
  fun _ => .failed ⟨("Failed to fetch")⟩ 5

/-- A 200/JSON response used in concrete instances. -/
def okResponse : FetchResponse :=
  { ok := true
    status := 200
    statusText := ("OK")
    headers := [(("content-type"), ("application/json"))]
    jsonBody := .obj [(("ok"), .bool true)]
    textBody := ("") }

/-- A transport where request index 1 (the second request) throws and the
other requests resolve with `okResponse`. -/
def mixedTransport : Nat → FetchOutcome :=
  fun i => if i = 1 then .failed ⟨("ECONNREFUSED")⟩ 7 else .completed okResponse 10

/-- A transport realising the spec's aggregation example: five requests
with response times 10,20,30,40,50, the first four resolving with a 200
response and the last one failing. -/
def varTransport : Nat → FetchOutcome :=
  fun i =>
    if i = 4 then .failed ⟨("Failed to fetch")⟩ 50
    else .completed okResponse (10 * (i + 1))

/-- A transport where request 0 resolves normally in 10 ms and request 1
resolves in 5 ms but its body read then throws, caught at 50 ms: one
failure result, but two pushes into `responseTimes`. -/
def bodyFailTransport : Nat → FetchOutcome :=
  fun i =>
    if i = 1 then .bodyFailed 5 ⟨("Unexpected end of JSON input")⟩ 50
    else .completed okResponse 10

/-- A concrete stand-in for the host JSON parser, used to instantiate the
abstract `parse` argument of `validateJSON` on concrete inputs. -/
def parse0 : String → Except String Nat :=
  fun s => if s = ("42") then .ok 42 else .error ("Unexpected token")

/-! ## Helper lemmas -/

theorem lookup_append (l₁ l₂ : List (String × String)) (k : String) :
    List.lookup k (l₁ ++ l₂) = (List.lookup k l₁).orElse fun _ => List.lookup k l₂ := by
  induction l₁ with
  | nil => simp [List.lookup, Option.orElse]
  | cons a t ih =>
    by_cases h : k = a.1
    · simp [List.lookup, h, Option.orElse]
    · have hb : (k == a.1) = false := beq_eq_false_iff_ne.mpr h
      simp only [List.cons_append, List.lookup, hb]
      exact ih

theorem runBatch_length (transport : Nat → FetchOutcome) (count : Nat) :
    (runBatch transport count).length = count := by
  simp [runBatch]

theorem runBatch_getD (transport : Nat → FetchOutcome) (count i : Nat)
    (h : i < count) :
    (runBatch transport count).getD i default = executeRequest (transport i) i := by
  simp [runBatch, List.getD_eq_getElem?_getD, List.getElem?_map, List.getElem?_range, h]

theorem foldl_min_le (t : List Nat) (h : Nat) :
    t.foldl min h ≤ h ∧ ∀ x ∈ t, t.foldl min h ≤ x := by
  induction t generalizing h with
  | nil => simp
  | cons a t ih =>
    constructor
    · calc t.foldl min (min h a) ≤ min h a := (ih _).1
        _ ≤ h := min_le_left _ _
    · intro x hx
      rcases List.mem_cons.mp hx with rfl | hx
      · calc t.foldl min (min h x) ≤ min h x := (ih _).1
          _ ≤ x := min_le_right _ _
      · exact (ih _).2 x hx

theorem foldl_min_mem (t : List Nat) (h : Nat) : t.foldl min h ∈ h :: t := by
  induction t generalizing h with
  | nil => simp
  | cons a t ih =>
    have hh := ih (min h a)
    rw [List.foldl_cons]
    rcases List.mem_cons.mp hh with heq | hmem
    · rw [heq]
      rcases le_total h a with hha | hha
      · rw [min_eq_left hha]
        exact List.mem_cons_self _ _
      · rw [min_eq_right hha]
        exact List.mem_cons_of_mem _ (List.mem_cons_self _ _)
    · exact List.mem_cons_of_mem _ (List.mem_cons_of_mem _ hmem)

theorem foldl_max_le (t : List Nat) (h : Nat) :
    h ≤ t.foldl max h ∧ ∀ x ∈ t, x ≤ t.foldl max h := by
  induction t generalizing h with
  | nil => simp
  | cons a t ih =>
    constructor
    · calc h ≤ max h a := le_max_left _ _
        _ ≤ t.foldl max (max h a) := (ih _).1
    · intro x hx
      rcases List.mem_cons.mp hx with rfl | hx
      · calc x ≤ max h x := le_max_right _ _
          _ ≤ t.foldl max (max h x) := (ih _).1
      · exact (ih _).2 x hx

theorem foldl_max_mem (t : List Nat) (h : Nat) : t.foldl max h ∈ h :: t := by
  induction t generalizing h with
  | nil => simp
  | cons a t ih =>
    have hh := ih (max h a)
    rw [List.foldl_cons]
    rcases List.mem_cons.mp hh with heq | hmem
    · rw [heq]
      rcases le_total h a with hha | hha
      · rw [max_eq_right hha]
        exact List.mem_cons_of_mem _ (List.mem_cons_self _ _)
      · rw [max_eq_left hha]
        exact List.mem_cons_self _ _
    · exact List.mem_cons_of_mem _ (List.mem_cons_of_mem _ hmem)

theorem jsMin_spec (l : List Nat) (h : l ≠ []) :
    jsMin l ∈ l ∧ ∀ x ∈ l, jsMin l ≤ x := by
  match l, h with
  | a :: t, _ =>
    refine ⟨foldl_min_mem t a, ?_⟩
    intro x hx
    rcases List.mem_cons.mp hx with rfl | hx
    · exact (foldl_min_le t x).1
    · exact (foldl_min_le t a).2 x hx

theorem jsMax_spec (l : List Nat) (h : l ≠ []) :
    jsMax l ∈ l ∧ ∀ x ∈ l, x ≤ jsMax l := by
  match l, h with
  | a :: t, _ =>
    refine ⟨foldl_max_mem t a, ?_⟩
    intro x hx
    rcases List.mem_cons.mp hx with rfl | hx
    · exact (foldl_max_le t x).1
    · exact (foldl_max_le t a).2 x hx

theorem avgResponseTime_eq_natDiv (l : List Nat) (h : l ≠ []) :
    avgResponseTime l = ((2 * sumTimes l + l.length) / (2 * l.length) : ℕ) := by
  have hlen : 0 < l.length := List.length_pos.mpr h
  unfold avgResponseTime jsRound
  have hl : (l.length : ℚ) ≠ 0 := by positivity
  have h2 : ((sumTimes l : ℚ) / (l.length : ℚ) + 1 / 2) =
      ((2 * sumTimes l + l.length : ℕ) : ℚ) / ((2 * l.length : ℕ) : ℚ) := by
    push_cast
    field_simp
    ring
  rw [h2, ← Int.natCast_floor_eq_floor (by positivity), Nat.floor_div_eq_div]

theorem isPrefixOf_nil_eq_true {pat : List Char} (h : pat.isPrefixOf ([] : List Char) = true) :
    pat = [] := by
  cases pat with
  | nil => rfl
  | cons c t => simp [List.isPrefixOf] at h

theorem replaceFirst_of_not_occurs (pat rep s : List Char)
    (h : occursSub pat s = false) : replaceFirst pat rep s = s := by
  induction s with
  | nil =>
    unfold occursSub at h
    unfold replaceFirst
    rw [if_neg (by simp [h])]
  | cons c t ih =>
    unfold occursSub at h
    rw [Bool.or_eq_false_iff] at h
    unfold replaceFirst
    rw [if_neg (by simp [h.1]), ih h.2]

theorem replaceFirst_first_occurrence (pat rep : List Char) (s : List Char)
    (i : Nat) (hpat : pat ≠ [])
    (hocc : pat.isPrefixOf (s.drop i) = true)
    (hmin : ∀ j, j < i → pat.isPrefixOf (s.drop j) = false) :
    replaceFirst pat rep s = s.take i ++ rep ++ s.drop (i + pat.length) := by
  induction s generalizing i with
  | nil =>
    rw [List.drop_nil] at hocc
    exact absurd (isPrefixOf_nil_eq_true hocc) hpat
  | cons c t ih =>
    cases i with
    | zero =>
      rw [List.drop_zero] at hocc
      unfold replaceFirst
      rw [if_pos hocc]
      simp
    | succ j =>
      have h0 : pat.isPrefixOf (c :: t) = false := by
        have := hmin 0 (Nat.succ_pos j)
        rwa [List.drop_zero] at this
      unfold replaceFirst
      rw [if_neg (by simp [h0])]
      have hocc' : pat.isPrefixOf (t.drop j) = true := by
        simpa using hocc
      have hmin' : ∀ k, k < j → pat.isPrefixOf (t.drop k) = false := by
        intro k hk
        have := hmin (k + 1) (by omega)
        simpa using this
      rw [ih j hocc' hmin']
      simp [Nat.succ_add]

theorem successfulCount_pos_iff (l : List SingleResult) :
    0 < successfulCount l ↔ ∃ r ∈ l, r.success = true := by
  unfold successfulCount
  rw [List.length_pos]
  constructor
  · intro h
    obtain ⟨x, hx⟩ := List.exists_mem_of_ne_nil _ h
    have hm := List.mem_filter.mp hx
    exact ⟨x, hm.1, hm.2⟩
  · rintro ⟨r, hr, hs⟩
    intro hnil
    have hm : r ∈ l.filter fun r => r.success := List.mem_filter.mpr ⟨hr, hs⟩
    rw [hnil] at hm
    exact absurd hm (List.not_mem_nil r)

theorem sendRequest_calls (transport : Nat → FetchOutcome) (count : Nat)
    (finalUrl method : String) (rh : List (String × String)) (rb : Option Json)
    (tt : Nat) :
    (sendRequest transport count finalUrl method rh rb tt).2 = count := by
  show (runBatch transport count).length = count
  exact runBatch_length _ _

theorem shapeOutcome_not_error (count : Nat) (finalUrl method : String)
    (rh : List (String × String)) (rb : Option Json)
    (results : List SingleResult) (responseTimes : List Nat) (tt : Nat) :
    isErrorResult (shapeOutcome count finalUrl method rh rb results
      responseTimes tt) = false := by
  unfold shapeOutcome
  split <;> rfl

theorem sendRequest_not_error (transport : Nat → FetchOutcome) (count : Nat)
    (finalUrl method : String) (rh : List (String × String)) (rb : Option Json)
    (tt : Nat) :
    isErrorResult (sendRequest transport count finalUrl method rh rb tt).1 =
      false :=
  shapeOutcome_not_error count finalUrl method rh rb
    (runBatch transport count) (batchTimes transport count) tt

theorem flatMap_singleton_eq_map {α β : Type} (l : List α) (f : α → List β)
    (g : α → β) (h : ∀ x ∈ l, f x = [g x]) : l.flatMap f = l.map g := by
  induction l with
  | nil => rfl
  | cons a t ih =>
    rw [List.flatMap_cons, List.map_cons, h a (List.mem_cons_self _ _),
      ih fun x hx => h x (List.mem_cons_of_mem _ hx)]
    rfl

theorem batchTimes_eq_map (transport : Nat → FetchOutcome) (count : Nat)
    (h : ∀ i, i < count → isBodyFailed (transport i) = false) :
    batchTimes transport count =
      (runBatch transport count).map fun r => r.responseTime := by
  unfold batchTimes runBatch
  rw [List.map_map]
  apply flatMap_singleton_eq_map
  intro i hi
  have hib := h i (List.mem_range.mp hi)
  cases htr : transport i with
  | completed resp el => simp [pushedTimes, htr, executeRequest, Function.comp]
  | failed e el => simp [pushedTimes, htr, executeRequest, Function.comp]
  | bodyFailed fe e el =>
    rw [htr] at hib
    simp [isBodyFailed] at hib

theorem sendRequest_batch_shape (transport : Nat → FetchOutcome) (count : Nat)
    (finalUrl method : String) (rh : List (String × String)) (rb : Option Json)
    (tt : Nat) (h : count ≠ 1) :
    (sendRequest transport count finalUrl method rh rb tt).1 =
      .batch
        { success := decide (0 < successfulCount (runBatch transport count))
          firstResult := (runBatch transport count).headI
          statistics := mkStatistics count (runBatch transport count)
            (batchTimes transport count) tt
          url := finalUrl
          method := method
          requestHeaders := rh
          requestBody := rb
          allResults := runBatch transport count } := by
  simp [sendRequest, shapeOutcome, h]

/-! ## Claim theorems -/

/-- C2 (amended): the aggregation counts successes and failures from the
`results` array, while avg/min/max range over the separately accumulated
`responseTimes` array; that array coincides with the results' responseTime
values exactly when no iteration's body read threw after its fetch
resolved, and in that case the statistics are the half-up rounding of the
arithmetic mean (equivalently the exact integer `(2*sum + n) / (2*n)`) and
the exact minimum and maximum of the results' response times. -/
theorem c2_statistics_aggregation (transport : Nat → FetchOutcome)
    (count totalTime : Nat) (hcount : 0 < count)
    (hbody : ∀ i, i < count → isBodyFailed (transport i) = false) :
    batchTimes transport count =
        ((runBatch transport count).map fun r => r.responseTime)
    ∧ (mkStatistics count (runBatch transport count)
        (batchTimes transport count) totalTime).successfulRequests =
        ((runBatch transport count).filter fun r => r.success).length
    ∧ (mkStatistics count (runBatch transport count)
        (batchTimes transport count) totalTime).failedRequests =
        (runBatch transport count).length -
          (mkStatistics count (runBatch transport count)
            (batchTimes transport count) totalTime).successfulRequests
    ∧ (mkStatistics count (runBatch transport count)
        (batchTimes transport count) totalTime).avgResponseTime =
        jsRound
          ((sumTimes ((runBatch transport count).map fun r => r.responseTime) : ℚ) /
            ((runBatch transport count).length : ℚ))
    ∧ (mkStatistics count (runBatch transport count)
        (batchTimes transport count) totalTime).avgResponseTime =
        ((2 * sumTimes ((runBatch transport count).map fun r => r.responseTime) +
            (runBatch transport count).length) /
          (2 * (runBatch transport count).length) : ℕ)
    ∧ (mkStatistics count (runBatch transport count)
        (batchTimes transport count) totalTime).minResponseTime ∈
        ((runBatch transport count).map fun r => r.responseTime)
    ∧ (∀ x ∈ ((runBatch transport count).map fun r => r.responseTime),
        (mkStatistics count (runBatch transport count)
          (batchTimes transport count) totalTime).minResponseTime ≤ x)
    ∧ (mkStatistics count (runBatch transport count)
        (batchTimes transport count) totalTime).maxResponseTime ∈
        ((runBatch transport count).map fun r => r.responseTime)
    ∧ (∀ x ∈ ((runBatch transport count).map fun r => r.responseTime),
        x ≤ (mkStatistics count (runBatch transport count)
          (batchTimes transport count) totalTime).maxResponseTime) := by
  have heq := batchTimes_eq_map transport count hbody
  have hne : runBatch transport count ≠ [] := by
    intro hnil
    have hlen0 := runBatch_length transport count
    rw [hnil] at hlen0
    simp at hlen0
    omega
  have hmap : ((runBatch transport count).map fun r => r.responseTime) ≠ [] := by
    simpa using hne
  refine ⟨heq, rfl, rfl, ?_, ?_, ?_, ?_, ?_, ?_⟩
  · show avgResponseTime (batchTimes transport count) = _
    rw [heq]
    unfold avgResponseTime
    rw [List.length_map]
  · show avgResponseTime (batchTimes transport count) = _
    rw [heq]
    have hnat :=
      avgResponseTime_eq_natDiv
        ((runBatch transport count).map fun r => r.responseTime) hmap
    rw [List.length_map] at hnat
    exact hnat
  · show jsMin (batchTimes transport count) ∈ _
    rw [heq]
    exact (jsMin_spec _ hmap).1
  · intro x hx
    show jsMin (batchTimes transport count) ≤ x
    rw [heq]
    exact (jsMin_spec _ hmap).2 x hx
  · show jsMax (batchTimes transport count) ∈ _
    rw [heq]
    exact (jsMax_spec _ hmap).1
  · intro x hx
    show x ≤ jsMax (batchTimes transport count)
    rw [heq]
    exact (jsMax_spec _ hmap).2 x hx

theorem c2_witness :
    (mkStatistics 5 (runBatch varTransport 5)
      (batchTimes varTransport 5) 123).successfulRequests = 4
    ∧ (mkStatistics 5 (runBatch varTransport 5)
        (batchTimes varTransport 5) 123).failedRequests = 1
    ∧ (mkStatistics 5 (runBatch varTransport 5)
        (batchTimes varTransport 5) 123).avgResponseTime = 30
    ∧ (mkStatistics 5 (runBatch varTransport 5)
        (batchTimes varTransport 5) 123).minResponseTime = 10
    ∧ (mkStatistics 5 (runBatch varTransport 5)
        (batchTimes varTransport 5) 123).maxResponseTime = 50 := by
  have h := c2_statistics_aggregation varTransport 5 123 (by decide) (by decide)
  refine ⟨by decide, by decide, ?_, by decide, by decide⟩
  rw [h.2.2.2.2.1]
  decide

theorem c2_counterexample :
    ((runBatch bodyFailTransport 2).map fun r => r.responseTime) = [10, 50]
    ∧ batchTimes bodyFailTransport 2 = [10, 5, 50]
    ∧ (mkStatistics 2 (runBatch bodyFailTransport 2)
        (batchTimes bodyFailTransport 2) 70).minResponseTime = 5
    ∧ ¬ (5 ∈ ((runBatch bodyFailTransport 2).map fun r => r.responseTime))
    ∧ (mkStatistics 2 (runBatch bodyFailTransport 2)
        (batchTimes bodyFailTransport 2) 70).avgResponseTime = 22
    ∧ avgResponseTime ((runBatch bodyFailTransport 2).map fun r => r.responseTime) =
        30 := by
  refine ⟨by decide, by decide, by decide, by decide, ?_, ?_⟩
  · show avgResponseTime (batchTimes bodyFailTransport 2) = 22
    rw [avgResponseTime_eq_natDiv _ (by decide)]
    decide
  · rw [avgResponseTime_eq_natDiv _ (by decide)]
    decide

/-- C3: for a request whose transport completed, the result's success flag
is exactly the transport's `ok` report; whenever that report agrees with
the spec's ok status range, success holds iff the status is in that
range. -/
theorem c3_success_iff_ok (resp : FetchResponse) (elapsed i : Nat) :
    (executeRequest (.completed resp elapsed) i).success = resp.ok
    ∧ (resp.ok = decide (inOkRange resp.status) →
        ((executeRequest (.completed resp elapsed) i).success = true ↔
          inOkRange resp.status)) := by
  constructor
  · rfl
  · intro h
    show resp.ok = true ↔ inOkRange resp.status
    rw [h]
    exact decide_eq_true_iff

theorem c3_witness :
    (executeRequest (.completed okResponse 10) 0).success = true := by
  have h := (c3_success_iff_ok okResponse 10 0).2 (by decide)
  exact h.mpr (by decide)

/-- C4: a transport-level exception never escapes the executor; it is
converted into the result with status 0, statusText `Network Error`,
success false, the error flag set, and the exception's message as data
(the executor is a total function into `SingleResult`). -/
theorem c4_exception_trapped (msg : String) (elapsed i : Nat) :
    executeRequest (.failed ⟨msg⟩ elapsed) i =
      { success := false
        status := 0
        statusText := ("Network Error")
        headers := []
        data := .text msg
        responseTime := elapsed
        requestNumber := i + 1
        error := true } := rfl

/-- C5: a batch of N requests (1 ≤ N ≤ 1000) in which some requests throw
still produces exactly N results; every request whose transport threw is
recorded as the status-0 failure result, and every request is recorded as
the executor's result for its own transport outcome. -/
theorem c5_failure_resilience (transport : Nat → FetchOutcome)
    (count : Nat) (_h1 : 1 ≤ count) (_h2 : count ≤ 1000) :
    (runBatch transport count).length = count
    ∧ (∀ i, i < count → ∀ msg elapsed, transport i = .failed ⟨msg⟩ elapsed →
        (runBatch transport count).getD i default =
          { success := false
            status := 0
            statusText := ("Network Error")
            headers := []
            data := .text msg
            responseTime := elapsed
            requestNumber := i + 1
            error := true })
    ∧ (∀ i, i < count →
        (runBatch transport count).getD i default =
          executeRequest (transport i) i) := by
  refine ⟨runBatch_length _ _, ?_, ?_⟩
  · intro i hi msg elapsed htr
    rw [runBatch_getD _ _ _ hi, htr]
    rfl
  · intro i hi
    exact runBatch_getD _ _ _ hi

theorem c5_witness :
    (runBatch mixedTransport 3).length = 3
    ∧ (runBatch mixedTransport 3).getD 1 default =
        { success := false
          status := 0
          statusText := ("Network Error")
          headers := []
          data := .text ("ECONNREFUSED")
          responseTime := 7
          requestNumber := 2
          error := true }
    ∧ ((runBatch mixedTransport 3).getD 0 default).success = true
    ∧ ((runBatch mixedTransport 3).getD 2 default).success = true := by
  have h := c5_failure_resilience mixedTransport 3 (by decide) (by decide)
  exact ⟨h.1, h.2.1 1 (by decide) ("ECONNREFUSED") 7 rfl, by decide, by decide⟩

/-- C6: a batch outcome's `allResults` is the in-issue-order result list of
the loop, and the element at position i carries requestNumber i+1,
whatever the transport outcomes are. -/
theorem c6_issue_order (transport : Nat → FetchOutcome) (count : Nat)
    (finalUrl method : String) (rh : List (String × String)) (rb : Option Json)
    (tt : Nat) (h : count ≠ 1) :
    ∃ b : BatchOutcome,
      (sendRequest transport count finalUrl method rh rb tt).1 = .batch b
      ∧ b.allResults = runBatch transport count
      ∧ ∀ i, i < count → (b.allResults.getD i default).requestNumber = i + 1 := by
  refine ⟨_, sendRequest_batch_shape transport count finalUrl method rh rb tt h,
    rfl, ?_⟩
  intro i hi
  show ((runBatch transport count).getD i default).requestNumber = i + 1
  rw [runBatch_getD _ _ _ hi]
  cases transport i <;> rfl

theorem c6_witness :
    ((runBatch mixedTransport 3).getD 0 default).requestNumber = 1
    ∧ ((runBatch mixedTransport 3).getD 1 default).requestNumber = 2
    ∧ ((runBatch mixedTransport 3).getD 2 default).requestNumber = 3 := by
  obtain ⟨b, hb, hall, hnum⟩ :=
    c6_issue_order mixedTransport 3 ("u") ("GET") [] none 9 (by decide)
  have h0 := hnum 0 (by omega)
  have h1 := hnum 1 (by omega)
  have h2 := hnum 2 (by omega)
  rw [hall] at h0 h1 h2
  exact ⟨h0, h1, h2⟩

/-- C10: for a batch outcome (count > 1) the top-level success flag is
`successfulRequests > 0`: true iff at least one request in the batch
succeeded. -/
theorem c10_batch_success_flag (transport : Nat → FetchOutcome) (count : Nat)
    (finalUrl method : String) (rh : List (String × String)) (rb : Option Json)
    (tt : Nat) (h : 1 < count) :
    ∃ b : BatchOutcome,
      (sendRequest transport count finalUrl method rh rb tt).1 = .batch b
      ∧ b.success = decide (0 < successfulCount (runBatch transport count))
      ∧ (b.success = true ↔ ∃ r ∈ runBatch transport count, r.success = true) := by
  have hne : count ≠ 1 := by omega
  refine ⟨_, sendRequest_batch_shape transport count finalUrl method rh rb tt hne,
    rfl, ?_⟩
  show decide (0 < successfulCount (runBatch transport count)) = true ↔ _
  rw [decide_eq_true_iff]
  exact successfulCount_pos_iff _

theorem c10_witness :
    ∃ b : BatchOutcome,
      (sendRequest mixedTransport 3 ("u") ("GET") [] none 9).1 = .batch b
      ∧ b.success = decide (0 < successfulCount (runBatch mixedTransport 3))
      ∧ (b.success = true ↔ ∃ r ∈ runBatch mixedTransport 3, r.success = true) :=
  c10_batch_success_flag mixedTransport 3 ("u") ("GET") [] none 9 (by decide)

/-- C1 (amended): the legacy `sendTestRequest` rejects a request count
outside [1, 1000] with the validation-error outcome and zero transport
calls; the Vue `sendRequest`, in contrast, performs no count check in code
(the bound there lives only in the number input's min/max attributes):
called with count 1001 it issues 1001 transport calls and produces a
batch-shaped outcome, not an error. -/
theorem c1_count_check (transport : Nat → FetchOutcome) (requestCount : Int)
    (finalUrl method : String) (rh : List (String × String)) (rb : Option Json)
    (tt : Nat) (h : requestCount < 1 ∨ requestCount > 1000) :
    sendTestRequest transport requestCount finalUrl method rh rb tt =
      (.errorResult ("Request count must be between 1 and 1000")
        ("Current value: " ++ toString requestCount), 0)
    ∧ ∀ transportB : Nat → FetchOutcome,
        (sendRequest transportB 1001 finalUrl method rh rb tt).2 = 1001
        ∧ isErrorResult (sendRequest transportB 1001 finalUrl method rh rb tt).1 =
            false := by
  constructor
  · unfold sendTestRequest
    rw [if_pos h]
  · intro transportB
    exact ⟨sendRequest_calls transportB 1001 finalUrl method rh rb tt,
      sendRequest_not_error transportB 1001 finalUrl method rh rb tt⟩

theorem c1_witness :
    sendTestRequest failTransport 1001 ("u") ("GET") [] none 9 =
      (.errorResult ("Request count must be between 1 and 1000")
        ("Current value: " ++ toString (1001 : Int)), 0) :=
  (c1_count_check failTransport 1001 ("u") ("GET") [] none 9 (by decide)).1

theorem c1_counterexample :
    (sendRequest failTransport 1001 ("u") ("GET") [] none 9).2 = 1001
    ∧ isErrorResult (sendRequest failTransport 1001 ("u") ("GET") [] none 9).1 =
        false := by
  exact ⟨sendRequest_calls failTransport 1001 ("u") ("GET") [] none 9,
    sendRequest_not_error failTransport 1001 ("u") ("GET") [] none 9⟩

/-- C7 (amended): the legacy `sendTestRequest` always merges the default
`Content-Type: application/json` under the caller's parsed headers, the
caller's value winning on a key collision; the Vue `sendRequest` instead
uses the caller's parsed headers verbatim and applies the default object
only when the headers input was empty. -/
theorem c7_header_merge (hs : List (String × String)) :
    List.lookup ("Content-Type") (legacyRequestHeaders (some hs)) =
      some ((List.lookup ("Content-Type") hs).getD ("application/json"))
    ∧ (∀ k v, List.lookup k hs = some v →
        List.lookup k (legacyRequestHeaders (some hs)) = some v)
    ∧ legacyRequestHeaders none = defaultHeaders
    ∧ vueRequestHeaders none = defaultHeaders := by
  have hmerge : legacyRequestHeaders (some hs) =
      (defaultHeaders.filter fun p => (List.lookup p.1 hs).isNone) ++ hs := rfl
  refine ⟨?_, ?_, rfl, rfl⟩
  · rw [hmerge, lookup_append]
    cases hlk : List.lookup ("Content-Type") hs with
    | none =>
      simp [defaultHeaders, List.filter, hlk, List.lookup, Option.orElse]
    | some v =>
      simp [defaultHeaders, List.filter, hlk, List.lookup, Option.orElse]
  · intro k v hkv
    rw [hmerge, lookup_append]
    by_cases hct : k = ("Content-Type")
    · subst hct
      simp [defaultHeaders, List.filter, hkv, List.lookup, Option.orElse]
    · have hnf : ∀ l : List (String × String),
          (∀ p ∈ l, p.1 = ("Content-Type")) → List.lookup k l = none := by
        intro l hl
        induction l with
        | nil => rfl
        | cons a t ih =>
          have ha := hl a (List.mem_cons_self _ _)
          have hb : (k == a.1) = false := by
            rw [ha]
            exact beq_eq_false_iff_ne.mpr hct
          simp only [List.lookup, hb]
          exact ih fun p hp => hl p (List.mem_cons_of_mem _ hp)
      rw [hnf _ ?_, hkv]
      · rfl
      · intro p hp
        have := List.mem_filter.mp hp
        have hpd : p ∈ defaultHeaders := this.1
        simp only [defaultHeaders, List.mem_singleton] at hpd
        rw [hpd]

theorem c7_witness :
    List.lookup ("Authorization")
      (legacyRequestHeaders (some [(("Authorization"), ("Bearer t"))])) =
      some ("Bearer t")
    ∧ List.lookup ("Content-Type")
        (legacyRequestHeaders (some [(("Content-Type"), ("text/plain"))])) =
        some ("text/plain") := by
  constructor
  · exact (c7_header_merge [(("Authorization"), ("Bearer t"))]).2.1
      ("Authorization") ("Bearer t") (by decide)
  · have h := (c7_header_merge [(("Content-Type"), ("text/plain"))]).1
    simpa using h

theorem c7_counterexample :
    List.lookup ("Content-Type")
      (vueRequestHeaders (some [(("Authorization"), ("Bearer x"))])) = none
    ∧ vueRequestHeaders (some [(("Authorization"), ("Bearer x"))]) =
        [(("Authorization"), ("Bearer x"))] := by
  exact ⟨by decide, rfl⟩

theorem parse0_msg (s m : String) (h : parse0 s = .error m) : m ≠ "" := by
  unfold parse0 at h
  by_cases hs : s = ("42")
  · rw [if_pos hs] at h
    exact absurd h (by simp)
  · rw [if_neg hs] at h
    injection h with h2
    rw [← h2]
    decide

/-- C8: the JSON validator treats blank input as valid with no data,
returns exactly the host parser's value for parseable input (round-trip),
and reports the host parser's error message — non-empty, as host parse
errors are — for malformed input. -/
theorem c8_json_validator {α : Type} (parse : String → Except String α)
    (T : String) (hmsg : ∀ s m, parse s = .error m → m ≠ "") :
    (jsTrim T = "" → validateJSON parse T = .nullResult)
    ∧ (∀ v, jsTrim T ≠ "" → parse T = .ok v →
        validateJSON parse T = .parsed v)
    ∧ (∀ m, jsTrim T ≠ "" → parse T = .error m →
        validateJSON parse T = .invalid m ∧ m ≠ "") := by
  refine ⟨?_, ?_, ?_⟩
  · intro h
    unfold validateJSON
    rw [if_pos h]
  · intro v h hp
    unfold validateJSON
    rw [if_neg h, hp]
  · intro m h hp
    constructor
    · unfold validateJSON
      rw [if_neg h, hp]
    · exact hmsg T m hp

theorem c8_witness :
    validateJSON parse0 ("42") = .parsed 42
    ∧ validateJSON parse0 ("   ") = .nullResult
    ∧ validateJSON parse0 ("\x7bbad") = .invalid ("Unexpected token")
    ∧ ("Unexpected token") ≠ ("") := by
  have h := c8_json_validator parse0 ("\x7bbad") parse0_msg
  refine ⟨?_, ?_, ?_, ?_⟩
  · exact (c8_json_validator parse0 ("42") parse0_msg).2.1 42 (by decide) rfl
  · exact (c8_json_validator parse0 ("   ") parse0_msg).1 (by decide)
  · exact (h.2.2 ("Unexpected token") (by decide) rfl).1
  · exact (h.2.2 ("Unexpected token") (by decide) rfl).2

/-- C9 (amended): `buildUrl` folds over the parameter entries in order;
an empty value leaves the URL unchanged, a non-empty value replaces the
first occurrence of the literal substring `:<name>` at that point (which
can fall inside a longer placeholder sharing the prefix, e.g. `:id`
matching inside `:idx`, so an untouched placeholder is only guaranteed to
survive when no such overlap occurs); no error is ever raised, and on the
spec's examples it substitutes `/users/:id` with id=42 to `/users/42` and
leaves `/users/:id` unchanged when no value is supplied. -/
theorem c9_substitution (url : String) :
    buildUrl url [] = url
    ∧ (∀ nm rest, buildUrl url ((nm, ("")) :: rest) = buildUrl url rest)
    ∧ (∀ nm v rest, v ≠ ("") →
        buildUrl url ((nm, v) :: rest) =
          buildUrl (replaceFirstStr url ((":") ++ nm) v) rest)
    ∧ (∀ pat rep : String, occursSubStr pat url = false →
        replaceFirstStr url pat rep = url)
    ∧ (∀ pat rep : String, ∀ i : Nat, pat.data ≠ [] →
        pat.data.isPrefixOf (url.data.drop i) = true →
        (∀ j, j < i → pat.data.isPrefixOf (url.data.drop j) = false) →
        (replaceFirstStr url pat rep).data =
          url.data.take i ++ rep.data ++ url.data.drop (i + pat.data.length))
    ∧ buildUrl ("/users/:id") [(("id"), ("42"))] = ("/users/42")
    ∧ buildUrl ("/users/:id") [] = ("/users/:id") := by
  refine ⟨rfl, ?_, ?_, ?_, ?_, by decide, rfl⟩
  · intro nm rest
    unfold buildUrl
    rw [List.foldl_cons, if_pos rfl]
  · intro nm v rest hv
    unfold buildUrl
    rw [List.foldl_cons, if_neg hv]
  · intro pat rep hocc
    unfold replaceFirstStr
    rw [replaceFirst_of_not_occurs _ _ _ hocc]
  · intro pat rep i hpat hocc hmin
    exact replaceFirst_first_occurrence pat.data rep.data url.data i hpat hocc
      hmin

theorem c9_witness :
    buildUrl ("/users/:id") [(("id"), ("42"))] =
      buildUrl (replaceFirstStr ("/users/:id") ((":") ++ ("id")) ("42")) []
    ∧ (replaceFirstStr ("/users/:id") (":id") ("42")).data =
        ("/users/:id").data.take 7 ++ ("42").data ++
          ("/users/:id").data.drop (7 + (":id").data.length) := by
  constructor
  · exact (c9_substitution ("/users/:id")).2.2.1 ("id") ("42") [] (by decide)
  · exact (c9_substitution ("/users/:id")).2.2.2.2.1 (":id") ("42") 7
      (by decide) (by decide) (by decide)

theorem c9_counterexample :
    buildUrl ("/:idx/:id") [(("id"), ("9"))] = ("/9x/:id")
    ∧ (extractParameters ("/:idx/:id")).map (fun p => p.name) =
        [("idx"), ("id")]
    ∧ occursSubStr (":idx") (buildUrl ("/:idx/:id") [(("id"), ("9"))]) = false
    ∧ occursSubStr (":id") (buildUrl ("/:idx/:id") [(("id"), ("9"))]) = true := by
  refine ⟨by decide, ?_, by decide, by decide⟩
  simp [extractParameters, extractParametersAux]
